import Mathlib

/-!
Verification of the Python banking fixture (Flask application under `src/`).

Strings from the Python program are modelled as Lean `String`s (`List Char`
where inductive reasoning is needed).  Regular-expression checks made with
`re.fullmatch` over a single character class are embedded by a recursive
matcher `matchPlus` (the semantics of `cls+` anchored at both ends);
`re.search` of a literal pattern under `re.IGNORECASE` is embedded as a
substring search after ASCII lower-casing of both pattern and subject.
-/

namespace PyStr

/-- ASCII lower-casing of one character, as Python case-insensitive regex
matching behaves on ASCII input. -/
def lowerChar (c : Char) : Char :=
  if 'A' ≤ c ∧ c ≤ 'Z' then Char.ofNat (c.toNat + 32) else c

/-- ASCII lower-casing of a character list. -/
def lowerList (s : List Char) : List Char := s.map lowerChar

/-- `leadsWith p s` holds when `p` is an initial segment of `s`
(the anchored-match step of a literal-pattern search). -/
def leadsWith : List Char → List Char → Bool
  | [], _ => true
  | _ :: _, [] => false
  | p :: ps, c :: cs => (p == c) && leadsWith ps cs

/-- `hasSub pat s` : the literal pattern `pat` occurs somewhere in `s`;
this is the semantics of Python `re.search` for a literal pattern. -/
def hasSub (pat : List Char) : List Char → Bool
  | [] => leadsWith pat []
  | c :: cs => leadsWith pat (c :: cs) || hasSub pat cs

/-- One-or-more repetition of a character class, anchored at both ends:
the semantics of `re.fullmatch` on a pattern of the shape `[cls]+`. -/
def matchPlus (cls : Char → Bool) : List Char → Bool
  | [] => false
  | [c] => cls c
  | c :: c' :: cs => cls c && matchPlus cls (c' :: cs)

end PyStr

open PyStr

/-! ### ValidationService (src/services/validation_service.py) -/

namespace ValidationService

/-- The character class `[0-9]` (ASCII digits). -/
def isDigitC (c : Char) : Bool := '0' ≤ c && c ≤ '9'

/-- The character class `[a-zA-Z0-9_]`. -/
def isAlnumU (c : Char) : Bool :=
  ('a' ≤ c && c ≤ 'z') || ('A' ≤ c && c ≤ 'Z') || isDigitC c || c == '_'

/-- `ValidationService.validate_user_id`: `re.fullmatch` of the regex `^[0-9]+$` against `user_id`
must succeed, otherwise a `ValueError` carrying the invalid-format message
is raised; on success the argument is returned unchanged. -/
def validate_user_id (user_id : String) : Except String String :=
  if matchPlus isDigitC user_id.data then
    Except.ok user_id
  else
    Except.error ("Invalid user ID format: " ++ user_id)

/-- `ValidationService.validate_numeric`: `re.fullmatch` of the regex `[0-9]+` against `value`
must succeed, otherwise `ValueError("Value must be numeric")`. -/
def validate_numeric (value : String) : Except String String :=
  if matchPlus isDigitC value.data then
    Except.ok value
  else
    Except.error "Value must be numeric"

/-- `ValidationService.validate_alphanumeric`:
returns `False` unless `re.fullmatch` of the regex `^[a-zA-Z0-9_]+$`
against `value` succeeds. -/
def validate_alphanumeric (value : String) : Bool :=
  matchPlus isAlnumU value.data

/-- The six blacklist patterns of `check_template_safety`, as literal strings
(the regexes `\{\{`, `\{%`, `__`, `import`, `eval`, `exec` are all literal). -/
def dangerous_patterns : List (List Char) :=
  [['\x7b', '\x7b'], ['\x7b', '%'], ['_', '_'],
   ['i', 'm', 'p', 'o', 'r', 't'], ['e', 'v', 'a', 'l'], ['e', 'x', 'e', 'c']]

/-- `ValidationService.check_template_safety`: for each blacklist pattern,
`re.search(pattern, template_code, re.IGNORECASE)`; returns `False` on the
first hit and `True` when no pattern occurs. -/
def check_template_safety (template_code : String) : Bool :=
  !(dangerous_patterns.any fun pat =>
      hasSub (lowerList pat) (lowerList template_code.data))

end ValidationService

/-- A case-insensitive occurrence of the literal pattern `pat` inside `s`:
after ASCII lower-casing, `pat` is a contiguous segment of `s`. -/
def CIOccurs (pat s : List Char) : Prop :=
  ∃ l r, lowerList s = l ++ lowerList pat ++ r

/-! ### LegacyService (src/services/legacy_service.py)

The two boolean instance fields are the state; the database and
validation sub-objects carry no state that feeds back into these fields.
Each method is a function from the instance state to a result paired with
the instance state it leaves behind (written exactly as the Python method
writes the fields). -/

namespace LegacyService

/-- The instance fields of `LegacyService` set in `__init__`. -/
structure State where
  legacy_mode_enabled : Bool
  admin_legacy_mode : Bool
  deriving DecidableEq, Repr

/-- `LegacyService.__init__`: both flags start `False`. -/
def initState : State :=
  { legacy_mode_enabled := false, admin_legacy_mode := false }

/-- Result of `process_legacy_import`, tagged with the path taken:
which sink function ran (with the SQL text it executed), or the
`ValueError` caught from `_validate_import_data`. -/
inductive Outcome where
  /-- `execute_legacy_query` ran (PATH 1) with the given SQL text. -/
  | legacySink (q : String)
  /-- `_process_admin_legacy_import` ran (PATH 3) with the given SQL text. -/
  | adminSink (q : String)
  /-- `_process_modern_import_with_query` ran (PATH 2) with the given SQL
  text: `INSERT INTO import_log (data, type) VALUES (…, …)` with quotes. -/
  | modernSink (q : String)
  /-- the `except ValueError` branch: a dict with status error and message. -/
  | errResult (m : String)
  deriving DecidableEq, Repr

/-- SQL text built in `execute_legacy_query`. -/
def legacy_query_text (legacy_data : String) : String :=
  "INSERT INTO users (username, email) VALUES (\x27" ++ legacy_data ++
    "\x27, \x27legacy@example.com\x27)"

/-- SQL text built in `_process_admin_legacy_import`. -/
def admin_import_query_text (impData : String) : String :=
  "INSERT INTO admin_imports (data) VALUES (\x27" ++ impData ++ "\x27)"

/-- SQL text built in `_process_modern_import_with_query`: both
`validated_data` and `import_type` are interpolated into the INSERT. -/
def modern_import_query_text (validated_data impType : String) : String :=
  "INSERT INTO import_log (data, type) VALUES (\x27" ++ validated_data ++
    "\x27, \x27" ++ impType ++ "\x27)"

/-- `LegacyService.process_legacy_import(import_data, is_admin, import_type)`:
PATH 1 when `self.legacy_mode_enabled`; PATH 3 when
`is_admin and self.admin_legacy_mode`; otherwise PATH 2, which first runs
`_validate_import_data` (raising `ValueError` unless
`validate_alphanumeric(import_data)`) and then executes the modern INSERT.
No field of `self` is assigned. -/
def process_legacy_import (s : State) (impData : String) (isAdm : Bool)
    (impType : String) : Outcome × State :=
  if s.legacy_mode_enabled then
    (Outcome.legacySink (legacy_query_text impData), s)
  else if isAdm && s.admin_legacy_mode then
    (Outcome.adminSink (admin_import_query_text impData), s)
  else if ValidationService.validate_alphanumeric impData then
    (Outcome.modernSink (modern_import_query_text impData impType), s)
  else
    (Outcome.errResult "Import data must be alphanumeric", s)

/-- `LegacyService.enable_legacy_mode(admin_password)`: on the correct
password it builds a fresh `LegacyService` (`temp_service`), sets the flag
on that other instance, and returns `True`; the fields of `self` are never
assigned. -/
def enable_legacy_mode (s : State) (admin_password : String) : Bool × State :=
  if admin_password == "deprecated_feature" then
    let temp_service : State := { initState with legacy_mode_enabled := true }
    (temp_service.legacy_mode_enabled, s)
  else
    (false, s)

/-- One method call on a `LegacyService` instance: every public or private
method of the class (none of the remaining methods reads or writes the two
boolean fields; they only touch the database connection). -/
inductive MethodCall where
  | processLegacyImportC (impData : String) (isAdm : Bool) (impType : String)
  | enableLegacyModeC (admin_password : String)
  | executeLegacyQueryC (legacy_data : String)
  | processAdminLegacyImportC (impData : String)
  | validateImportDataC (impData : String)
  | processModernImportC (validated_data impType : String)
  | deprecatedBatchProcessorC (batch_data : String)
  | oldMigrationHandlerC (migration_sql : String)

/-- Effect of one method call on the instance fields. -/
def step (s : State) : MethodCall → State
  | MethodCall.processLegacyImportC d a t => ( process_legacy_import s d a t).2
  | MethodCall.enableLegacyModeC pw => ( enable_legacy_mode s pw).2
  | MethodCall.executeLegacyQueryC _ => s
  | MethodCall.processAdminLegacyImportC _ => s
  | MethodCall.validateImportDataC _ => s
  | MethodCall.processModernImportC _ _ => s
  | MethodCall.deprecatedBatchProcessorC _ => s
  | MethodCall.oldMigrationHandlerC _ => s

/-- The instance state after a sequence of method calls on a freshly
constructed `LegacyService`. -/
def runCalls (calls : List MethodCall) : State :=
  calls.foldl step initState

end LegacyService

/-! ### Python `str.replace` and `html.escape` -/

namespace PyReplace

/-- One full pass of Python `s.replace(pat, repl)` — every non-overlapping
occurrence, scanned left to right, replaced without rescanning the
replacement — driven by fuel.  Each step consumes at least one subject
character, so fuel equal to the subject length (as `replaceAll` passes)
never runs out.  All patterns used in this development are nonempty. -/
def replaceGo (pat repl : List Char) : Nat → List Char → List Char
  | _, [] => []
  | 0, s => s
  | Nat.succ n, c :: cs =>
    if !pat.isEmpty && leadsWith pat (c :: cs) then
      repl ++ replaceGo pat repl n (List.drop (pat.length - 1) cs)
    else
      c :: replaceGo pat repl n cs

/-- Python `s.replace(pat, repl)`. -/
def replaceAll (s pat repl : List Char) : List Char :=
  replaceGo pat repl s.length s

/-- Python `html.escape(s)` (with its default `quote=True`): the five
successive `str.replace` passes in source order — `&`, `<`, `>`, `"`, then
the single quote. -/
def htmlEscape (s : List Char) : List Char :=
  let s1 := replaceAll s ['&'] ['&', 'a', 'm', 'p', ';']
  let s2 := replaceAll s1 ['<'] ['&', 'l', 't', ';']
  let s3 := replaceAll s2 ['>'] ['&', 'g', 't', ';']
  let s4 := replaceAll s3 ['\x22'] ['&', 'q', 'u', 'o', 't', ';']
  replaceAll s4 ['\x27'] ['&', '#', 'x', '2', '7', ';']

end PyReplace

/-! ### TemplateService (src/services/template_service.py) -/

namespace TemplateService

open PyReplace

/-- The four template markers removed by `_sanitize_template_content`,
in the order the replace passes run. -/
def openVar : List Char := ['\x7b', '\x7b']

/-- Marker closing a Jinja2 variable: two closing braces. -/
def closeVar : List Char := ['\x7d', '\x7d']

/-- Marker opening a Jinja2 statement: open brace, percent. -/
def openStmt : List Char := ['\x7b', '%']

/-- Marker closing a Jinja2 statement: percent, close brace. -/
def closeStmt : List Char := ['%', '\x7d']

/-- `TemplateService._sanitize_template_content`: the four sequential
marker-removing `str.replace` passes followed by `html.escape`. -/
def sanitize_template_content (content : String) : String :=
  let c1 := replaceAll content.data openVar []
  let c2 := replaceAll c1 closeVar []
  let c3 := replaceAll c2 openStmt []
  let c4 := replaceAll c3 closeStmt []
  String.mk (htmlEscape c4)

/-- `TemplateService.render_admin_preview`: the string handed to
`render_template_string` — the sanitized content wrapped in the preview
div. -/
def render_admin_preview_arg (template_content : String) : String :=
  "<div class=\x27preview\x27>" ++ sanitize_template_content template_content
    ++ "</div>"

end TemplateService

/-! ### Security utilities (src/utils/security.py)

The SHA-256 digest itself is the out-of-scope hashing primitive
(`hashlib.sha256(...).hexdigest()`); it enters the embedding as an explicit
function parameter `sha256hex`, so every theorem below holds for the real
digest function in particular.  The `salt is None` branch (fresh
`secrets.token_hex(16)`) is not taken in any claim, which quantifies over
explicitly supplied salts. -/

namespace SecurityUtils

/-- `hash_password(password, salt)` with a supplied salt: digest of the
f-string `password ++ salt`, returned together with the salt. -/
def hash_password (sha256hex : String → String) (password salt : String) :
    String × String :=
  (sha256hex (password ++ salt), salt)

/-- `verify_password(password, hashed_password, salt)`: recompute
`hash_password(password, salt)` and compare the digest for string
equality. -/
def verify_password (sha256hex : String → String)
    (password hashed_password salt : String) : Bool :=
  ( hash_password sha256hex password salt).1 == hashed_password

end SecurityUtils

/-! ### Authorization decorators (src/app.py and src/utils/auth_decorators.py) -/

namespace AuthGates

/-- The part of the Flask session the two `admin_required` variants read:
presence of the `user_id` key, the `role` value, and the `is_admin` value
(`none` models an absent key). -/
structure Session where
  user_id : Option String
  role : Option String
  is_admin : Option Bool
  deriving DecidableEq, Repr

/-- What a decorated endpoint returns: either an error JSON response with a
status code, produced by the decorator itself, or the wrapped handler
value of the handler body. -/
inductive RouteResponse (α : Type) where
  | errorJson (msg : String) (status : Nat)
  | handlerBody (a : α)
  deriving DecidableEq, Repr

/-- `admin_required` as defined in `src/app.py`: 401 when `user_id` is not
in the session, 403 when the session role differs from admin, otherwise the
wrapped handler runs. -/
def admin_required_app {α : Type} (f : Session → α) (s : Session) :
    RouteResponse α :=
  if s.user_id = none then
    RouteResponse.errorJson "Authentication required" 401
  else if s.role ≠ some "admin" then
    RouteResponse.errorJson "Admin access required" 403
  else
    RouteResponse.handlerBody (f s)

/-- `admin_required` as defined in `src/utils/auth_decorators.py`: 403
unless `session.get(is_admin)` is truthy (an absent key is falsy). -/
def admin_required_deco {α : Type} (f : Session → α) (s : Session) :
    RouteResponse α :=
  if !(s.is_admin.getD false) then
    RouteResponse.errorJson "Admin access required" 403
  else
    RouteResponse.handlerBody (f s)

end AuthGates

/-! ### QueryBuilder (src/services/database_service.py) -/

namespace DatabaseService

/-- The mutable fields of a `QueryBuilder`: the table name fixed at
construction, the accumulated `conditions` fragments and the accumulated
`params` values (filter values are strings here — every request value the
builder receives in this program is one). -/
structure QueryBuilder where
  table : String
  conditions : List String
  params : List String
  deriving DecidableEq, Repr

/-- `QueryBuilder.__init__(connection, table_name)`. -/
def QueryBuilder.init (table_name : String) : QueryBuilder :=
  { table := table_name, conditions := [], params := [] }

/-- `QueryBuilder.filter_by(field, value)`: appends the fragment
`field = ?` and the raw value. -/
def QueryBuilder.filter_by (qb : QueryBuilder) (field value : String) :
    QueryBuilder :=
  { qb with conditions := qb.conditions ++ [field ++ " = ?"],
            params := qb.params ++ [value] }

/-- `QueryBuilder.filter_like(field, value)`: appends the fragment
`field LIKE ?` and the value wrapped in percent signs. -/
def QueryBuilder.filter_like (qb : QueryBuilder) (field value : String) :
    QueryBuilder :=
  { qb with conditions := qb.conditions ++ [field ++ " LIKE ?"],
            params := qb.params ++ ["%" ++ value ++ "%"] }

/-- Joining with the SQL AND separator, as `" AND ".join(conditions)`. -/
def joinAnd : List String → String
  | [] => ""
  | [c] => c
  | c :: c' :: cs => c ++ " AND " ++ joinAnd (c' :: cs)

/-- The query text `QueryBuilder.execute` hands to `cursor.execute`
(together with `tuple(self.params)` as the parameter tuple). -/
def QueryBuilder.executeQuery (qb : QueryBuilder) : String :=
  let where_clause := if qb.conditions.isEmpty then "1=1" else joinAnd qb.conditions
  "SELECT * FROM " ++ qb.table ++ " WHERE " ++ where_clause

/-- One filter call in a `filter_by`/`filter_like` call sequence. -/
inductive FilterCall where
  | fby (field value : String)
  | flike (field value : String)
  deriving DecidableEq, Repr

/-- Apply one filter call to the builder. -/
def applyFilter (qb : QueryBuilder) : FilterCall → QueryBuilder
  | FilterCall.fby f v => qb.filter_by f v
  | FilterCall.flike f v => qb.filter_like f v

/-- The value-free shape of a filter call: which method, on which field. -/
def filterShape : FilterCall → Bool × String
  | FilterCall.fby f _ => (true, f)
  | FilterCall.flike f _ => (false, f)

/-- `DatabaseService.generate_report_parameterized(report_type, user_filter)`:
builds on the transactions table, `filter_by(user_id, user_filter)` then
`filter_like(description, report_type)`, and executes. -/
def generate_report_parameterized (report_type user_filter : String) :
    QueryBuilder :=
  ((QueryBuilder.init "transactions").filter_by "user_id" user_filter).filter_like
    "description" report_type

end DatabaseService

/-! ### Account controller report endpoint
(src/controllers/account_controller.py and
src/repositories/account_repository.py) -/

namespace AccountController

/-- Which branch of `generate_report` ran, with the raw SQL text the
repository function on that branch handed to `execute_raw_query`. -/
inductive ReportOutcome where
  | detailedQuery (q : String)
  | legacyQuery (q : String)
  | summaryReport
  deriving DecidableEq, Repr

/-- SQL text built in `AccountRepository.get_detailed_report`. -/
def get_detailed_report_query (account_id : String) : String :=
  "SELECT * FROM account_details WHERE account_id = \x27" ++ account_id ++ "\x27"

/-- SQL text built in `AccountRepository.get_legacy_report`. -/
def get_legacy_report_query (account_id : String) : String :=
  "SELECT * FROM legacy_reports WHERE account_id = \x27" ++ account_id ++ "\x27"

/-- `generate_report` in the account controller: dispatch on the
request-supplied `report_type` (the `type` query parameter, default
`summary`); the `legacy` branch calls
`AccountService.generate_legacy_report`, which calls
`AccountRepository.get_legacy_report`. -/
def generate_report (report_type account_id : String) : ReportOutcome :=
  if report_type == "detailed" then
    ReportOutcome.detailedQuery (get_detailed_report_query account_id)
  else if report_type == "legacy" then
    ReportOutcome.legacyQuery (get_legacy_report_query account_id)
  else
    ReportOutcome.summaryReport

end AccountController

/-! ### Static call graph of the whole fixture

One node per function relevant to reachability of the two dead sinks;
`calls` lists, for each function, the functions its body references
(conservative static call graph, read directly off the source files).
`registeredHandlers` is the set of handlers carrying a route decorator
(`@app.route` in `src/app.py`, `@account_bp.route`, `@report_bp.route`). -/

namespace CallGraph

/-- Functions of the fixture program. -/
inductive Fn where
  | searchTransactions | getUserProfile | generateReportApp
  | renderCustomTemplate | getPreferences | adminAuditLogs
  | adminTemplatePreview | legacyImportData | healthCheck
  | internalDiagnosticEndpoint
  | searchAccounts | findAccount | lookupAccount | adminSearch
  | generateReportCtrl | unusedLegacySearch
  | generateReportRC | generateCustomReportRC
  | searchTransactionsVulnerable | getUserByIdWithValidation
  | generateReportParameterized | buildSafeQuery | qbFilterBy | qbFilterLike
  | qbExecuteF | getAuditLogsByDate | runDiagnosticQuery | safeQueryWithOrm
  | validateUserId | validateNumeric | validateAccountType | validateRole
  | validateAlphanumeric | checkTemplateSafety | sanitizeSqlInputV
  | sanitizeHtmlV
  | renderUserTemplate | renderPreferenceTemplate | renderAdminPreview
  | sanitizeTemplateContentF | renderSafeNotification | renderHtmlEscaped
  | getAuditLogs | enrichAuditLogs | previewTemplate | checkRateLimit
  | filterAdminOutput | validateAdminAction
  | processLegacyImportF | validateImportDataF | processModernImportWithQuery
  | executeLegacyQueryF | processAdminLegacyImportF | deprecatedBatchProcessor
  | oldMigrationHandler | enableLegacyModeF
  | searchByName | findByIdSafe | lookupByType | adminRawSearch
  | generateDetailedReport | generateLegacyReport | legacySearch
  | searchAccountsRaw | findByIdParameterized | lookupByValidatedType
  | adminSearchRaw | getDetailedReport | getLegacyReport | legacySearchRaw
  | generateSafeReport | generateCustomReportSvc
  | executeRawQuery | executeParameterizedQuery | processSearchTerm
  deriving DecidableEq, Repr

open Fn

/-- The callees referenced by each function body. -/
def calls : Fn → List Fn
  | searchTransactions => [searchTransactionsVulnerable]
  | getUserProfile => [validateUserId, getUserByIdWithValidation]
  | generateReportApp => [generateReportParameterized]
  | renderCustomTemplate => [checkTemplateSafety, renderUserTemplate]
  | getPreferences => [renderPreferenceTemplate]
  | adminAuditLogs => [getAuditLogs]
  | adminTemplatePreview => [previewTemplate]
  | legacyImportData => [processLegacyImportF]
  | healthCheck => []
  | internalDiagnosticEndpoint => [runDiagnosticQuery]
  | searchAccounts => [searchByName]
  | findAccount => [findByIdSafe]
  | lookupAccount => [lookupByType]
  | adminSearch => [adminRawSearch]
  | generateReportCtrl => [generateDetailedReport, generateLegacyReport]
  | unusedLegacySearch => [legacySearch]
  | generateReportRC => [generateSafeReport]
  | generateCustomReportRC => [generateCustomReportSvc]
  | generateReportParameterized => [buildSafeQuery, qbFilterBy, qbFilterLike, qbExecuteF]
  | getAuditLogs => [getAuditLogsByDate, enrichAuditLogs]
  | previewTemplate => [checkRateLimit, renderAdminPreview, filterAdminOutput]
  | renderAdminPreview => [sanitizeTemplateContentF]
  | processLegacyImportF =>
      [executeLegacyQueryF, processAdminLegacyImportF, validateImportDataF,
       processModernImportWithQuery]
  | validateImportDataF => [validateAlphanumeric]
  | searchByName => [processSearchTerm, searchAccountsRaw]
  | findByIdSafe => [validateNumeric, findByIdParameterized]
  | lookupByType => [validateAccountType, lookupByValidatedType]
  | adminRawSearch => [adminSearchRaw]
  | generateDetailedReport => [getDetailedReport]
  | generateLegacyReport => [getLegacyReport]
  | legacySearch => [legacySearchRaw]
  | searchAccountsRaw => [executeRawQuery]
  | findByIdParameterized => [executeParameterizedQuery]
  | lookupByValidatedType => [executeRawQuery]
  | adminSearchRaw => [executeRawQuery]
  | getDetailedReport => [executeRawQuery]
  | getLegacyReport => [executeRawQuery]
  | legacySearchRaw => [executeRawQuery]
  | _ => []

/-- The handlers that carry a route decorator. -/
def registeredHandlers : List Fn :=
  [searchTransactions, getUserProfile, generateReportApp, renderCustomTemplate,
   getPreferences, adminAuditLogs, adminTemplatePreview, legacyImportData,
   healthCheck, searchAccounts, findAccount, lookupAccount, adminSearch,
   generateReportCtrl, generateReportRC, generateCustomReportRC]

/-- `Reaches f g`: the static call relation, reflexively and transitively
closed — `g` can be invoked during a request handled by `f`. -/
inductive Reaches : Fn → Fn → Prop where
  | refl (f : Fn) : Reaches f f
  | step {f g h : Fn} : g ∈ calls f → Reaches g h → Reaches f h

/-- Every function except the two dead entry points, the dead service hop
`legacySearch`, and the two dead sinks. -/
def liveSide : List Fn :=
  [searchTransactions, getUserProfile, generateReportApp, renderCustomTemplate,
   getPreferences, adminAuditLogs, adminTemplatePreview, legacyImportData,
   healthCheck, searchAccounts, findAccount, lookupAccount, adminSearch,
   generateReportCtrl, generateReportRC, generateCustomReportRC,
   searchTransactionsVulnerable, getUserByIdWithValidation,
   generateReportParameterized, buildSafeQuery, qbFilterBy, qbFilterLike,
   qbExecuteF, getAuditLogsByDate, safeQueryWithOrm,
   validateUserId, validateNumeric, validateAccountType, validateRole,
   validateAlphanumeric, checkTemplateSafety, sanitizeSqlInputV, sanitizeHtmlV,
   renderUserTemplate, renderPreferenceTemplate, renderAdminPreview,
   sanitizeTemplateContentF, renderSafeNotification, renderHtmlEscaped,
   getAuditLogs, enrichAuditLogs, previewTemplate, checkRateLimit,
   filterAdminOutput, validateAdminAction,
   processLegacyImportF, validateImportDataF, processModernImportWithQuery,
   executeLegacyQueryF, processAdminLegacyImportF, deprecatedBatchProcessor,
   oldMigrationHandler, enableLegacyModeF,
   searchByName, findByIdSafe, lookupByType, adminRawSearch,
   generateDetailedReport, generateLegacyReport,
   searchAccountsRaw, findByIdParameterized, lookupByValidatedType,
   adminSearchRaw, getDetailedReport, getLegacyReport,
   generateSafeReport, generateCustomReportSvc,
   executeRawQuery, executeParameterizedQuery, processSearchTerm]

end CallGraph

/-! ## Lemmas and claim theorems -/

namespace PyStr

theorem leadsWith_iff (p s : List Char) :
    leadsWith p s = true ↔ ∃ r, s = p ++ r := by
  induction p generalizing s with
  | nil => simp [leadsWith]
  | cons a ps ih =>
    cases s with
    | nil => simp [leadsWith]
    | cons c cs =>
      simp only [leadsWith, Bool.and_eq_true, beq_iff_eq, ih, List.cons_append,
        List.cons.injEq]
      constructor
      · rintro ⟨rfl, r, rfl⟩; exact ⟨r, rfl, rfl⟩
      · rintro ⟨r, rfl, rfl⟩; exact ⟨rfl, r, rfl⟩

theorem hasSub_iff (pat s : List Char) :
    hasSub pat s = true ↔ ∃ l r, s = l ++ pat ++ r := by
  induction s with
  | nil =>
    simp only [hasSub, leadsWith_iff]
    constructor
    · rintro ⟨r, hr⟩; exact ⟨[], r, by simpa using hr⟩
    · rintro ⟨l, r, h⟩
      rcases List.append_eq_nil.mp (List.append_eq_nil.mp h.symm).1 with ⟨h1, h2⟩
      exact ⟨[], by simp [h2]⟩
  | cons c cs ih =>
    simp only [hasSub, Bool.or_eq_true, leadsWith_iff, ih]
    constructor
    · rintro (⟨r, hr⟩ | ⟨l, r, hr⟩)
      · exact ⟨[], r, by simpa using hr⟩
      · exact ⟨c :: l, r, by simp [hr]⟩
    · rintro ⟨l, r, hr⟩
      cases l with
      | nil => exact Or.inl ⟨r, by simpa using hr⟩
      | cons x xs =>
        right
        refine ⟨xs, r, ?_⟩
        have h2 : c :: cs = x :: (xs ++ (pat ++ r)) := by simpa using hr
        injection h2 with h3 h4
        simpa [List.append_assoc] using h4

theorem matchPlus_iff (cls : Char → Bool) (s : List Char) :
    matchPlus cls s = true ↔ s ≠ [] ∧ ∀ c ∈ s, cls c = true := by
  induction s with
  | nil => simp [matchPlus]
  | cons c cs ih =>
    cases cs with
    | nil => simp [matchPlus]
    | cons c' cs' =>
      simp only [matchPlus, Bool.and_eq_true, ih]
      constructor
      · rintro ⟨h1, _, h2⟩
        exact ⟨by simp, by simpa [h1] using h2⟩
      · rintro ⟨-, h⟩
        exact ⟨h c (by simp), by simp, fun x hx => h x (by simp [hx])⟩

end PyStr

namespace LegacyService

/-- `step` never changes the instance fields (no method assigns them). -/
theorem step_preserves (s : State) (c : MethodCall) : step s c = s := by
  cases c with
  | processLegacyImportC d a t =>
    simp only [step, process_legacy_import]
    split <;> [rfl; split <;> [rfl; (split <;> rfl)]]
  | enableLegacyModeC pw =>
    simp only [step, enable_legacy_mode]
    split <;> rfl
  | executeLegacyQueryC d => rfl
  | processAdminLegacyImportC d => rfl
  | validateImportDataC d => rfl
  | processModernImportC d t => rfl
  | deprecatedBatchProcessorC d => rfl
  | oldMigrationHandlerC sql => rfl

theorem runCalls_eq_init (calls : List MethodCall) : runCalls calls = initState := by
  induction calls with
  | nil => rfl
  | cons c cs ih =>
    simpa [runCalls, List.foldl_cons, step_preserves] using ih

end LegacyService

namespace CallGraph

theorem liveSide_closed :
    ∀ f ∈ liveSide, ∀ g ∈ calls f, g ∈ liveSide := by decide

theorem reaches_liveSide {f g : Fn} (hf : f ∈ liveSide) (h : Reaches f g) :
    g ∈ liveSide := by
  induction h with
  | refl f => exact hf
  | step hc _ ih => exact ih (liveSide_closed _ hf _ hc)

end CallGraph

/-! ### Bridging lemmas -/

theorem isDigitC_iff (c : Char) :
    ValidationService.isDigitC c = true ↔ ('0' ≤ c ∧ c ≤ '9') := by
  simp [ValidationService.isDigitC]

theorem isAlnumU_iff (c : Char) :
    ValidationService.isAlnumU c = true ↔
      (('a' ≤ c ∧ c ≤ 'z') ∨ ('A' ≤ c ∧ c ≤ 'Z') ∨ ('0' ≤ c ∧ c ≤ '9')
        ∨ c = '_') := by
  simp [ValidationService.isAlnumU, ValidationService.isDigitC, or_assoc]

theorem string_ne_empty_iff (s : String) : s ≠ "" ↔ s.data ≠ [] :=
  not_congr String.ext_iff

/-- `re.fullmatch` of a one-character-class-plus regex succeeds exactly on
nonempty strings all of whose characters are in the class. -/
theorem matchPlus_string_iff (cls : Char → Bool) (s : String) :
    matchPlus cls s.data = true ↔ (s ≠ "" ∧ ∀ c ∈ s.data, cls c = true) := by
  rw [matchPlus_iff, string_ne_empty_iff]

/-! ### Claim theorems -/

/-- C1: On every `LegacyService` instance as constructed by `__init__`, after
every sequence of method calls (including `enable_legacy_mode`), the fields
`legacy_mode_enabled` and `admin_legacy_mode` are still `False`; hence
`process_legacy_import` never takes the `execute_legacy_query` branch and
never takes the `_process_admin_legacy_import` branch, for all arguments. -/
theorem C1_legacy_flags_immutable_and_branches_dead
    (calls : List LegacyService.MethodCall) (impData : String) (isAdm : Bool)
    (impType : String) :
    (LegacyService.runCalls calls).legacy_mode_enabled = false ∧
    (LegacyService.runCalls calls).admin_legacy_mode = false ∧
    (∀ q, ( LegacyService.process_legacy_import (LegacyService.runCalls calls)
        impData isAdm impType).1 ≠ LegacyService.Outcome.legacySink q) ∧
    (∀ q, ( LegacyService.process_legacy_import (LegacyService.runCalls calls)
        impData isAdm impType).1 ≠ LegacyService.Outcome.adminSink q) := by
  rw [LegacyService.runCalls_eq_init]
  refine ⟨rfl, rfl, ?_, ?_⟩ <;>
    · intro q
      by_cases hv : ValidationService.validate_alphanumeric impData = true <;>
        simp [ LegacyService.process_legacy_import, LegacyService.initState, hv]

/-- C2 as stated is false: the INSERT of
`_process_modern_import_with_query` can execute although `import_type`
never passed `validate_alphanumeric` — only `import_data` is validated.
With `import_data = "abc"` and `import_type = "bad type!"` the sink runs
and the interpolated `import_type` fails the alphanumeric pattern. -/
theorem C2_counterexample :
    ¬ (∀ (impData impType : String) (isAdm : Bool) (q : String),
        ( LegacyService.process_legacy_import LegacyService.initState impData
          isAdm impType).1 = LegacyService.Outcome.modernSink q →
        ValidationService.validate_alphanumeric impData = true ∧
        ValidationService.validate_alphanumeric impType = true) := by
  intro h
  have h2 := h "abc" "bad type!" false
    (LegacyService.modern_import_query_text "abc" "bad type!") (by decide)
  exact absurd h2.2 (by decide)

/-- C2 (amended): whenever the INSERT of
`_process_modern_import_with_query` executes on a freshly constructed
`LegacyService`, the interpolated `import_data` has passed the strict
alphanumeric validation; `import_type` is interpolated unvalidated. -/
theorem C2_amended_modern_sink_data_validated
    (impData impType : String) (isAdm : Bool) (q : String)
    (h : ( LegacyService.process_legacy_import LegacyService.initState impData
        isAdm impType).1 = LegacyService.Outcome.modernSink q) :
    ValidationService.validate_alphanumeric impData = true := by
  by_cases hv : ValidationService.validate_alphanumeric impData = true
  · exact hv
  · exfalso
    simp [ LegacyService.process_legacy_import, LegacyService.initState, hv]
      at h

/-- Witness for the amended C2 at a concrete input. -/
theorem C2_amended_witness :
    ( LegacyService.process_legacy_import LegacyService.initState "abc" false
      "t1").1 = LegacyService.Outcome.modernSink
        (LegacyService.modern_import_query_text "abc" "t1") ∧
    ValidationService.validate_alphanumeric "abc" = true :=
  ⟨by decide, C2_amended_modern_sink_data_validated "abc" "t1" false
    (LegacyService.modern_import_query_text "abc" "t1") (by decide)⟩

/-- C3: `validate_user_id` returns its argument unchanged exactly on
nonempty all-ASCII-digit strings (in particular a trailing newline is
rejected) and raises `ValueError` otherwise, and `validate_alphanumeric`
returns `True` exactly on nonempty strings of ASCII letters, digits and
underscores. -/
theorem C3_strict_validators_fullmatch :
    (∀ s : String, ValidationService.validate_user_id s = Except.ok s ↔
        (s ≠ "" ∧ ∀ c ∈ s.data, '0' ≤ c ∧ c ≤ '9')) ∧
    (∀ s : String, ¬ (s ≠ "" ∧ ∀ c ∈ s.data, '0' ≤ c ∧ c ≤ '9') →
        ValidationService.validate_user_id s =
          Except.error ("Invalid user ID format: " ++ s)) ∧
    ValidationService.validate_user_id "123\n" =
      Except.error "Invalid user ID format: 123\n" ∧
    (∀ s : String, ValidationService.validate_alphanumeric s = true ↔
        (s ≠ "" ∧ ∀ c ∈ s.data,
          ('a' ≤ c ∧ c ≤ 'z') ∨ ('A' ≤ c ∧ c ≤ 'Z') ∨ ('0' ≤ c ∧ c ≤ '9')
            ∨ c = '_')) := by
  have hdig : ∀ s : String, matchPlus ValidationService.isDigitC s.data = true ↔
      (s ≠ "" ∧ ∀ c ∈ s.data, '0' ≤ c ∧ c ≤ '9') := by
    intro s
    rw [matchPlus_string_iff]
    exact and_congr_right fun _ =>
      forall₂_congr fun c _ => isDigitC_iff c
  refine ⟨fun s => ?_, fun s hs => ?_, ?_, fun s => ?_⟩
  · rw [← hdig]
    unfold ValidationService.validate_user_id
    split <;> rename_i hm <;> simp [hm]
  · unfold ValidationService.validate_user_id
    rw [if_neg]
    rw [hdig]
    exact hs
  · rfl
  · unfold ValidationService.validate_alphanumeric
    rw [matchPlus_string_iff]
    exact and_congr_right fun _ =>
      forall₂_congr fun c _ => isAlnumU_iff c

/-- C4: `check_template_safety` is exactly the blacklist substring check —
it returns `True` iff none of the six patterns occurs case-insensitively
in the value — and, having no full-value allowlist, it accepts some strings
that merely avoid the listed patterns (for instance a template expression
written with a dollar sign and braces). -/
theorem C4_weak_blacklist_substring_only :
    (∀ t : String, ValidationService.check_template_safety t = true ↔
        ∀ pat ∈ ValidationService.dangerous_patterns, ¬ CIOccurs pat t.data) ∧
    (∃ t : String,
        (∀ pat ∈ ValidationService.dangerous_patterns, ¬ CIOccurs pat t.data) ∧
        ValidationService.check_template_safety t = true) := by
  have main : ∀ t : String, ValidationService.check_template_safety t = true ↔
      ∀ pat ∈ ValidationService.dangerous_patterns, ¬ CIOccurs pat t.data := by
    intro t
    constructor
    · intro h pat hp hocc
      have hany : (ValidationService.dangerous_patterns.any fun pat =>
          hasSub (lowerList pat) (lowerList t.data)) = false := by
        simpa [ValidationService.check_template_safety] using h
      have hpat : hasSub (lowerList pat) (lowerList t.data) = true :=
        (hasSub_iff _ _).mpr hocc
      have : (ValidationService.dangerous_patterns.any fun pat =>
          hasSub (lowerList pat) (lowerList t.data)) = true :=
        List.any_eq_true.mpr ⟨pat, hp, hpat⟩
      rw [hany] at this
      exact Bool.false_ne_true this
    · intro h
      have hany : (ValidationService.dangerous_patterns.any fun pat =>
          hasSub (lowerList pat) (lowerList t.data)) = false := by
        rw [← Bool.not_eq_true, List.any_eq_true]
        rintro ⟨pat, hp, hpat⟩
        exact h pat hp ((hasSub_iff _ _).mp hpat)
      simp [ValidationService.check_template_safety, hany]
  refine ⟨main, ⟨"$\x7b7*7\x7d", (main _).mp (by decide), by decide⟩⟩

/-- C5: contrary to the claim, `_sanitize_template_content` does not remove
all template markers — on the input consisting of open brace, close brace,
close brace, open brace, the third and fourth characters are removed by the
close-marker pass, which concatenates the remaining braces into an opening
variable marker; `render_admin_preview` then hands that marker to
`render_template_string`. -/
theorem C5_sanitize_reintroduces_marker :
    TemplateService.sanitize_template_content "\x7b\x7d\x7d\x7b" = "\x7b\x7b" ∧
    hasSub TemplateService.openVar
      (TemplateService.sanitize_template_content "\x7b\x7d\x7d\x7b").data
        = true ∧
    hasSub TemplateService.openVar
      (TemplateService.render_admin_preview_arg "\x7b\x7d\x7d\x7b").data
        = true := by
  exact ⟨by decide, by decide, by decide⟩

/-- C6: `internal_diagnostic_endpoint` carries no route decorator,
`unused_legacy_search` is called from no function, and no handler carrying
a route decorator can transitively invoke
`DatabaseService.run_diagnostic_query` or
`AccountRepository.legacy_search_raw`. -/
theorem C6_unregistered_entry_points_dead :
    CallGraph.Fn.internalDiagnosticEndpoint ∉ CallGraph.registeredHandlers ∧
    (∀ f : CallGraph.Fn,
      CallGraph.Fn.unusedLegacySearch ∉ CallGraph.calls f) ∧
    (∀ f ∈ CallGraph.registeredHandlers,
      ¬ CallGraph.Reaches f CallGraph.Fn.runDiagnosticQuery ∧
      ¬ CallGraph.Reaches f CallGraph.Fn.legacySearchRaw) := by
  refine ⟨by decide, fun f => by cases f <;> decide, fun f hf => ?_⟩
  have hlive : ∀ g ∈ CallGraph.registeredHandlers, g ∈ CallGraph.liveSide := by
    decide
  constructor <;> intro hr <;>
    exact absurd (CallGraph.reaches_liveSide (hlive f hf) hr) (by decide)

/-- Witness for C6 at the first registered handler. -/
theorem C6_witness :
    CallGraph.Fn.searchTransactions ∈ CallGraph.registeredHandlers ∧
    (¬ CallGraph.Reaches CallGraph.Fn.searchTransactions
        CallGraph.Fn.runDiagnosticQuery ∧
     ¬ CallGraph.Reaches CallGraph.Fn.searchTransactions
        CallGraph.Fn.legacySearchRaw) :=
  ⟨by decide, C6_unregistered_entry_points_dead.2.2 _ (by decide)⟩

/-- C7: with a session that does not identify an admin, both
`admin_required` variants return an error JSON response with status 401 or
403, and the response does not depend on the wrapped handler — the handler
body (and so any downstream service call) is never invoked. -/
theorem C7_admin_required_blocks_non_admin
    (α : Type) (f g : AuthGates.Session → α) (s : AuthGates.Session) :
    (¬ (s.user_id ≠ none ∧ s.role = some "admin") →
      (∃ m st, AuthGates.admin_required_app f s
          = AuthGates.RouteResponse.errorJson m st ∧ (st = 401 ∨ st = 403)) ∧
      AuthGates.admin_required_app f s = AuthGates.admin_required_app g s) ∧
    (s.is_admin.getD false = false →
      AuthGates.admin_required_deco f s
        = AuthGates.RouteResponse.errorJson "Admin access required" 403 ∧
      AuthGates.admin_required_deco f s = AuthGates.admin_required_deco g s)
    := by
  constructor
  · intro h
    unfold AuthGates.admin_required_app
    by_cases hu : s.user_id = none
    · rw [if_pos hu, if_pos hu]
      exact ⟨⟨_, 401, rfl, Or.inl rfl⟩, rfl⟩
    · have hr : s.role ≠ some "admin" := fun hrr => h ⟨hu, hrr⟩
      rw [if_neg hu, if_neg hu, if_pos hr, if_pos hr]
      exact ⟨⟨_, 403, rfl, Or.inr rfl⟩, rfl⟩
  · intro h
    unfold AuthGates.admin_required_deco
    rw [h]
    exact ⟨rfl, rfl⟩

/-- Witness for C7: the empty session (no user, no role, no admin flag)
with two distinct handler bodies. -/
theorem C7_witness :
    (¬ ((AuthGates.Session.mk none none none).user_id ≠ none ∧
        (AuthGates.Session.mk none none none).role = some "admin")) ∧
    ((AuthGates.Session.mk none none none).is_admin.getD false = false) ∧
    ((∃ m st, AuthGates.admin_required_app (fun _ => (0 : Nat))
          (AuthGates.Session.mk none none none)
          = AuthGates.RouteResponse.errorJson m st ∧ (st = 401 ∨ st = 403)) ∧
      AuthGates.admin_required_app (fun _ => (0 : Nat))
          (AuthGates.Session.mk none none none)
        = AuthGates.admin_required_app (fun _ => (1 : Nat))
          (AuthGates.Session.mk none none none)) ∧
    (AuthGates.admin_required_deco (fun _ => (0 : Nat))
          (AuthGates.Session.mk none none none)
        = AuthGates.RouteResponse.errorJson "Admin access required" 403 ∧
      AuthGates.admin_required_deco (fun _ => (0 : Nat))
          (AuthGates.Session.mk none none none)
        = AuthGates.admin_required_deco (fun _ => (1 : Nat))
          (AuthGates.Session.mk none none none)) :=
  ⟨by simp, rfl,
   (C7_admin_required_blocks_non_admin Nat (fun _ => 0) (fun _ => 1)
      (AuthGates.Session.mk none none none)).1 (by simp),
   (C7_admin_required_blocks_non_admin Nat (fun _ => 0) (fun _ => 1)
      (AuthGates.Session.mk none none none)).2 rfl⟩

/-- C8: the legacy-report branch is runtime-reachable: for the request
value `legacy` and every `account_id`, `generate_report` takes the branch
through `AccountService.generate_legacy_report`, and the raw SQL text of
`AccountRepository.get_legacy_report` (with the interpolated `account_id`)
executes; a different request value takes a different branch, so the guard
depends on request values. -/
theorem C8_legacy_report_branch_live (account_id : String) :
    AccountController.generate_report "legacy" account_id =
      AccountController.ReportOutcome.legacyQuery
        (AccountController.get_legacy_report_query account_id) ∧
    AccountController.get_legacy_report_query account_id =
      "SELECT * FROM legacy_reports WHERE account_id = \x27" ++ account_id
        ++ "\x27" ∧
    AccountController.generate_report "summary" account_id =
      AccountController.ReportOutcome.summaryReport := by
  refine ⟨?_, rfl, rfl⟩
  unfold AccountController.generate_report
  rw [if_neg (by decide)]
  rw [if_pos (by decide)]

/-- Folding the same shapes of filter calls (same methods, same fields, any
values) from builders agreeing on table and conditions leaves the table and
the conditions equal: the values only ever land in `params`. -/
theorem foldl_applyFilter_shape_eq :
    ∀ (cs1 cs2 : List DatabaseService.FilterCall)
      (qb1 qb2 : DatabaseService.QueryBuilder),
      cs1.map DatabaseService.filterShape
        = cs2.map DatabaseService.filterShape →
      qb1.table = qb2.table → qb1.conditions = qb2.conditions →
      (cs1.foldl DatabaseService.applyFilter qb1).table
        = (cs2.foldl DatabaseService.applyFilter qb2).table ∧
      (cs1.foldl DatabaseService.applyFilter qb1).conditions
        = (cs2.foldl DatabaseService.applyFilter qb2).conditions := by
  intro cs1
  induction cs1 with
  | nil =>
    intro cs2 qb1 qb2 h ht hc
    cases cs2 with
    | nil => exact ⟨ht, hc⟩
    | cons c2 cs2' => simp at h
  | cons c cs ih =>
    intro cs2 qb1 qb2 h ht hc
    cases cs2 with
    | nil => simp at h
    | cons c2 cs2' =>
      simp only [List.map_cons, List.cons.injEq] at h
      obtain ⟨hs, hrest⟩ := h
      simp only [List.foldl_cons]
      refine ih cs2' _ _ hrest ?_ ?_ <;>
        cases c <;> cases c2 <;>
          simp [DatabaseService.filterShape, Prod.ext_iff] at hs <;>
          simp [DatabaseService.applyFilter,
            DatabaseService.QueryBuilder.filter_by,
            DatabaseService.QueryBuilder.filter_like, ht, hc, hs]

/-- C9: `QueryBuilder` is noninterfering in its filter values — two
`filter_by`/`filter_like` call sequences with the same methods on the same
fields in the same order yield the identical SQL text from `execute`,
whatever the values; in particular `generate_report_parameterized` hands
`cursor.execute` one fixed parameterized query text for all request
values. -/
theorem C9_querybuilder_value_noninterference
    (table : String) (cs1 cs2 : List DatabaseService.FilterCall)
    (h : cs1.map DatabaseService.filterShape
        = cs2.map DatabaseService.filterShape)
    (rt1 uf1 rt2 uf2 : String) :
    (cs1.foldl DatabaseService.applyFilter
        (DatabaseService.QueryBuilder.init table)).executeQuery
      = (cs2.foldl DatabaseService.applyFilter
        (DatabaseService.QueryBuilder.init table)).executeQuery ∧
    (DatabaseService.generate_report_parameterized rt1 uf1).executeQuery
      = (DatabaseService.generate_report_parameterized rt2 uf2).executeQuery
    := by
  obtain ⟨ht, hc⟩ := foldl_applyFilter_shape_eq cs1 cs2
    (DatabaseService.QueryBuilder.init table)
    (DatabaseService.QueryBuilder.init table) h rfl rfl
  constructor
  · unfold DatabaseService.QueryBuilder.executeQuery
    rw [ht, hc]
  · rfl

/-- Witness for C9: same shapes, different values (one of them an
injection attempt); both runs produce the same query text. -/
theorem C9_witness :
    ([DatabaseService.FilterCall.fby "user_id" "1",
      DatabaseService.FilterCall.flike "description" "a"].map
        DatabaseService.filterShape
      = [DatabaseService.FilterCall.fby "user_id" "2 OR 1=1",
         DatabaseService.FilterCall.flike "description" "b"].map
        DatabaseService.filterShape) ∧
    (([DatabaseService.FilterCall.fby "user_id" "1",
       DatabaseService.FilterCall.flike "description" "a"].foldl
        DatabaseService.applyFilter
        (DatabaseService.QueryBuilder.init "transactions")).executeQuery
      = ([DatabaseService.FilterCall.fby "user_id" "2 OR 1=1",
          DatabaseService.FilterCall.flike "description" "b"].foldl
        DatabaseService.applyFilter
        (DatabaseService.QueryBuilder.init "transactions")).executeQuery ∧
     (DatabaseService.generate_report_parameterized "x" "y").executeQuery
      = (DatabaseService.generate_report_parameterized "p" "q").executeQuery)
    :=
  ⟨by decide, C9_querybuilder_value_noninterference "transactions"
    [DatabaseService.FilterCall.fby "user_id" "1",
     DatabaseService.FilterCall.flike "description" "a"]
    [DatabaseService.FilterCall.fby "user_id" "2 OR 1=1",
     DatabaseService.FilterCall.flike "description" "b"]
    (by decide) "x" "y" "p" "q"⟩

/-- C10: password hashing round-trips — `verify_password` accepts exactly
the digest `hash_password` produced for the same password and salt, and
rejects any password whose salted digest differs. -/
theorem C10_password_hash_roundtrip
    (sha256hex : String → String) (p p2 salt : String)
    (hdiff : sha256hex (p2 ++ salt) ≠ sha256hex (p ++ salt)) :
    SecurityUtils.verify_password sha256hex p
      (SecurityUtils.hash_password sha256hex p salt).1
      (SecurityUtils.hash_password sha256hex p salt).2 = true ∧
    SecurityUtils.verify_password sha256hex p2
      (SecurityUtils.hash_password sha256hex p salt).1 salt = false := by
  constructor
  · simp [SecurityUtils.verify_password, SecurityUtils.hash_password]
  · simp [SecurityUtils.verify_password, SecurityUtils.hash_password, hdiff]

/-- Witness for C10 with the identity digest stand-in and two passwords
whose salted inputs differ. -/
theorem C10_witness :
    ((fun x : String => x) ("b" ++ "s") ≠ (fun x : String => x) ("a" ++ "s"))
      ∧
    (SecurityUtils.verify_password (fun x : String => x) "a"
      (SecurityUtils.hash_password (fun x : String => x) "a" "s").1
      (SecurityUtils.hash_password (fun x : String => x) "a" "s").2 = true ∧
     SecurityUtils.verify_password (fun x : String => x) "b"
      (SecurityUtils.hash_password (fun x : String => x) "a" "s").1 "s"
        = false) :=
  ⟨by decide, C10_password_hash_roundtrip (fun x => x) "a" "b" "s" (by decide)⟩
